import Mathlib

-- Verification of the workshop-2016 repository against its specification.
-- The repository holds three artifacts: a PBS batch submission script
-- (db/CuAu/Au/submit_script) and two Jupyter notebooks
-- (pymatgen_core/pymatgen_core.ipynb, manual_wflow/Si_bandstructure.ipynb).
-- Each artifact is shallowly embedded below, faithful to the source text:
-- the shell script line by line, the notebooks statement by statement.
-- Convention: Python single-quoted string literals are transcribed with
-- double quotes, and literal brace characters inside Lean strings are
-- written with the hex escapes for the two brace characters.

namespace Workshop2016

-- ===================================================================
-- Part 1: the submit script, db/CuAu/Au/submit_script, verbatim lines.
-- ===================================================================

def submit_script : List String :=
  [ "#!/bin/bash",
    "#PBS -q glean",
    "#PBS -N job",
    "#PBS -l nodes=1:ppn=24:haswell",
    "#PBS -l walltime=24:00:00",
    "#PBS -o run_vasp.out",
    "#PBS -e job.err",
    "#PBS -V",
    "#PBS -M ongsp@ucsd.edu",
    "#PBS -m a",
    "#PBS -A ong-group",
    "#PBS -d /home/ongsp/Li2O/Au",
    "",
    "module load vasp scipy/2.7",
    "run_vasp -c \"mpirun -machinefile $PBS_NODEFILE -np 24 /opt/vasp/5.4.1/bin/vasp\" -z -s /oasis/tscc/scratch/ongsp relax relax" ]

-- String utilities defined by structural recursion over the character
-- list, so that all checks below evaluate inside the kernel.

def splitChars (sep : Char) : List Char → List (List Char)
  | [] => [[]]
  | c :: cs =>
      let r := splitChars sep cs
      if c = sep then [] :: r
      else
        match r with
        | [] => [[c]]
        | w :: ws => (c :: w) :: ws

def splitStr (sep : Char) (s : String) : List String :=
  (splitChars sep s.toList).map (fun cs => String.mk cs)

def strStartsWith (p s : String) : Bool := p.toList.isPrefixOf s.toList

def digitsToNat : List Char → Nat → Option Nat
  | [], acc => some acc
  | c :: cs, acc =>
      if c.isDigit then digitsToNat cs (acc * 10 + (c.toNat - 48)) else none

def strToNat (s : String) : Option Nat :=
  match s.toList with
  | [] => none
  | cs => digitsToNat cs 0

-- Line classification for a PBS shell script.

def isDirective (l : String) : Bool := strStartsWith "#PBS " l

def isShebangLine (l : String) : Bool := strStartsWith "#!" l

def isBlank (l : String) : Bool := l == ""

def isCommand (l : String) : Bool := !(isDirective l) && !(isShebangLine l) && !(isBlank l)

def lineTokens (l : String) : List String := (splitStr ' ' l).filter (fun t => !(t == ""))

def directiveFlag (l : String) : String := ((lineTokens l).drop 1).headD ""

def directiveFlags : List String := (submit_script.filter isDirective).map directiveFlag

def commandLines : List String := submit_script.filter isCommand

-- The PBS resource directives ("-l" lines) carry colon-separated
-- key=value fields; the run command embeds one double-quoted MPI
-- subcommand.  The extractors below recover those fields.

def lDirectiveFields : List String :=
  ((submit_script.filter (fun l => isDirective l && directiveFlag l == "-l")).map
      (fun l => ((lineTokens l).drop 2).headD "")).flatMap (fun s => splitStr ':' s)

def resourceValue (key : String) : Option Nat :=
  match lDirectiveFields.filter (fun f => strStartsWith (key ++ "=") f) with
  | [f] => strToNat (((splitStr '=' f).drop 1).headD "")
  | _ => none

def quotedSubcommand (l : String) : String := (splitStr '"' l).getD 1 ""

def mpiLaunchTokens (l : String) : List String :=
  (splitStr ' ' (quotedSubcommand l)).filter (fun t => !(t == ""))

def npValue : Option Nat :=
  match (mpiLaunchTokens (commandLines.getD 1 "")).dropWhile (fun t => !(t == "-np")) with
  | _ :: v :: _ => strToNat v
  | _ => none

-- A command line "launches a single external binary under an MPI
-- launcher" when its quoted subcommand starts with mpirun and names
-- exactly one absolute path (the binary to run).

def launchesSingleBinaryUnderMPI (l : String) : Bool :=
  (mpiLaunchTokens l).headD "" == "mpirun" &&
    (((mpiLaunchTokens l).drop 1).filter (fun t => strStartsWith "/" t)).length == 1

-- The allocation parameters the spec lists in its external-interfaces
-- section, as PBS directive flags: queue name (-q), node/core count and
-- walltime (-l), output (-o) and error (-e) redirection, notification
-- policy (-m with its -M recipient), working directory (-d).

def specListedFlags : List String := ["-q", "-l", "-o", "-e", "-m", "-M", "-d"]

-- Shell control-flow keywords, assignment syntax, and concurrency and
-- signalling constructs, for the declarative-template claims.

def shellControlKeywords : List String :=
  ["if", "then", "elif", "else", "fi", "case", "esac", "for", "while", "until", "do", "done", "function"]

def isIdentChar (c : Char) : Bool := c.isAlphanum || c == '_'

def isShellAssignment (t : String) : Bool :=
  match splitStr '=' t with
  | v :: _ :: _ => !(v == "") && v.toList.all isIdentChar
  | _ => false

def shellConcurrencyWords : List String :=
  ["&", "wait", "trap", "kill", "bg", "fg", "jobs", "disown", "nohup"]

def commandIsStraightLine (l : String) : Bool :=
  (lineTokens l).all (fun t => !(shellControlKeywords.contains t) && !(isShellAssignment t))

def commandHasNoConcurrency (l : String) : Bool :=
  (lineTokens l).all (fun t => !(shellConcurrencyWords.contains t)) &&
    l.toList.all (fun c => !(c == '&'))

-- ===================================================================
-- Part 2: the notebooks, embedded statement by statement.
-- A PyCall records one Python call as written: the callable expression
-- and its argument texts, verbatim.  A PyStmt is one statement; loops
-- and conditionals keep their bodies, and the calls appearing in a
-- loop iterable or an if condition are recorded alongside it.
-- ===================================================================

structure PyCall where
  callee : String
  args : List String
deriving DecidableEq

inductive PyStmt where
  | importMod (m : String)
  | fromImport (m : String) (names : List String)
  | assign (target : String) (rhsRoot : String) (calls : List PyCall)
  | exprStmt (rhsRoot : String) (calls : List PyCall)
  | printStmt (args : List String)
  | setItem (target index value : String)
  | forLoop (v iter : String) (iterCalls : List PyCall) (body : List PyStmt)
  | ifElse (cond : String) (condCalls : List PyCall) (thn els : List PyStmt)
  | shellCmd (cmd : String)
  | magicCmd (cmd : String)
  | funcDef (name : String)
  | classDef (name : String)

-- pymatgen_core/pymatgen_core.ipynb, code cells in order.

def pmgCell2 : List PyStmt :=
  [ .fromImport "pymatgen" ["Structure", "Lattice", "MPRester"] ]

def pmgCell4 : List PyStmt :=
  [ .assign "lattice" "Lattice" [⟨"Lattice", ["[[2.8, 0, 0], [0, 2.8, 0], [0, 0, 2.8]]"]⟩],
    .assign "lattice" "Lattice" [⟨"Lattice.from_lengths_and_angles", ["[2.8, 2.8, 2.8]", "[90, 90, 90]"]⟩],
    .exprStmt "lattice" [⟨"lattice.cubic", ["2.8"]⟩],
    .exprStmt "lattice" [⟨"lattice.hexagonal", ["a = 2.8", "c = 3.6"]⟩],
    .exprStmt "lattice" [⟨"lattice.rhombohedral", ["a = 2.8", "alpha = 60"]⟩],
    .printStmt ["\"a = \"", "lattice.a"],
    .printStmt ["\"alpha = \"", "lattice.alpha"],
    .printStmt ["\"volume = \"", "lattice.volume"] ]

def pmgCell6 : List PyStmt :=
  [ .assign "bcc_fe" "Structure" [⟨"Structure", ["lattice", "[\"Fe\", \"Fe\"]", "[[0, 0, 0], [0.5, 0.5, 0.5]]"]⟩],
    .assign "site0" "bcc_fe" [],
    .exprStmt "site0" [],
    .exprStmt "site0" [],
    .exprStmt "site0" [],
    .assign "bcc_fe" "Structure" [⟨"Structure.from_spacegroup", ["\"Im-3m\"", "Lattice.cubic(2.8)", "[\"Fe\"]", "[[0, 0, 0]]"]⟩],
    .printStmt ["bcc_fe"],
    .assign "nacl" "Structure" [⟨"Structure.from_spacegroup", ["\"Fm-3m\"", "Lattice.cubic(5.692)", "[\"Na+\", \"Cl-\"]", "[[0, 0, 0], [0.5, 0.5, 0.5]]"]⟩],
    .assign "big_structure" "Structure" [⟨"Structure.from_file", ["\"Nb2O5.cif\""]⟩],
    .exprStmt "big_structure" [] ]

def pmgCell8 : List PyStmt :=
  [ .assign "specie" "" [],
    .assign "cu_au" "Structure" [⟨"Structure.from_spacegroup", ["\"Fm-3m\"", "Lattice.cubic(3.677)", "[specie]", "[[0, 0, 0]]"]⟩],
    .printStmt ["cu_au"] ]

def pmgCell10 : List PyStmt :=
  [ .setItem "big_structure" "0" "\"V\"",
    .exprStmt "big_structure" [],
    .setItem "big_structure" "0" "\"Nb\"",
    .exprStmt "bcc_fe" [⟨"bcc_fe.append", ["\"C\"", "[0.25, 0.25, 0.25]"]⟩],
    .exprStmt "bcc_fe" [⟨"bcc_fe.pop", ["-1"]⟩],
    .exprStmt "bcc_fe" [⟨"bcc_fe.make_supercell", ["[2, 2, 2]"]⟩],
    .assign "sd" "" [],
    .assign "names" "" [],
    .forLoop "n" "range(big_structure.num_sites)" [⟨"range", ["big_structure.num_sites"]⟩]
      [ .ifElse "big_structure[n].species_string == \"Nb\"" []
          [ .exprStmt "sd" [⟨"sd.append", ["[False, False, False]"]⟩] ]
          [ .exprStmt "sd" [⟨"sd.append", ["[True, True, True]"]⟩] ] ],
    .exprStmt "big_structure" [⟨"big_structure.add_site_property", ["\"selective_dynamics\"", "sd"]⟩],
    .exprStmt "big_structure" [⟨"big_structure.to", ["filename=\"POSCAR\""]⟩] ]

def pmgCell12 : List PyStmt :=
  [ .assign "mpr" "MPRester" [⟨"MPRester", []⟩],
    .assign "structure" "mpr" [⟨"mpr.get_structures", ["\"BaNiO3\""]⟩],
    .forLoop "n" "range(structure.num_sites)" [⟨"range", ["structure.num_sites"]⟩]
      [ .ifElse "structure[n].species_string == \"O\"" []
          [ .setItem "structure" "n" "\"F\"" ] [] ],
    .exprStmt "structure" [⟨"structure.replace_species", ["\x7b\"F\":\"O\"\x7d"]⟩] ]

def pmgCell14 : List PyStmt :=
  [ .fromImport "pymatgen.transformations.standard_transformations"
      ["SubstitutionTransformation", "DeformStructureTransformation",
       "OrderDisorderedStructureTransformation", "RotationTransformation"],
    .assign "structure" "mpr" [⟨"mpr.get_structures", ["\"BaNiO3\""]⟩],
    .assign "st" "SubstitutionTransformation" [⟨"SubstitutionTransformation", ["\x7b\"O\":\"F\"\x7d"]⟩],
    .assign "new_structure" "st" [⟨"st.apply_transformation", ["structure"]⟩],
    .assign "old_structure" "st" [⟨"st.inverse.apply_transformation", ["new_structure"]⟩],
    .exprStmt "old_structure" [],
    .assign "odst" "OrderDisorderedStructureTransformation" [⟨"OrderDisorderedStructureTransformation", []⟩],
    .assign "ss" "odst" [⟨"odst.apply_transformation", ["cu_au"]⟩],
    .exprStmt "ss" [⟨"len", ["ss"]⟩] ]

def pmgCell16 : List PyStmt :=
  [ .fromImport "pymatgen.symmetry.analyzer" ["SpacegroupAnalyzer"],
    .assign "sga" "SpacegroupAnalyzer" [⟨"SpacegroupAnalyzer", ["bcc_fe"]⟩],
    .assign "prim" "sga" [⟨"sga.get_primitive_standard_structure", []⟩],
    .exprStmt "sga" [⟨"sga.get_conventional_standard_structure", []⟩],
    .exprStmt "sga" [⟨"sga.get_crystal_system", []⟩],
    .exprStmt "sga" [⟨"sga.get_spacegroup_symbol", []⟩] ]

def pmgCell18 : List PyStmt :=
  [ .fromImport "pymatgen.analysis.structure_matcher" ["StructureMatcher"],
    .assign "sm" "StructureMatcher" [⟨"StructureMatcher", []⟩],
    .exprStmt "sm" [⟨"sm.fit", ["bcc_fe", "prim"]⟩] ]

def pmgCell20 : List PyStmt :=
  [ .assign "query" "mpr"
      [⟨"mpr.query", ["\x7b\"anonymous_formula\":\x7b\"A\":1, \"B\":3, \"C\":6\x7d\x7d", "\x7b\"structure\":1\x7d"]⟩] ]

def pmgCell21 : List PyStmt :=
  [ .assign "structures" "query" [],
    .assign "wo3" "mpr" [⟨"mpr.get_structure_by_material_id", ["\"mp-33319\""]⟩],
    .assign "sm" "StructureMatcher" [⟨"StructureMatcher", []⟩],
    .assign "matches" "" [],
    .forLoop "structure" "structures" []
      [ .ifElse "sm.fit_anonymous(structure, wo3)" [⟨"sm.fit_anonymous", ["structure", "wo3"]⟩]
          [ .exprStmt "matches" [⟨"matches.append", ["structure"]⟩] ] [] ] ]

def pmgCell23 : List PyStmt :=
  [ .fromImport "pymatgen.analysis.diffraction.xrd" ["XRDCalculator", "ATOMIC_SCATTERING_PARAMS"],
    .exprStmt "XRDCalculator" [],
    .assign "xrdc" "XRDCalculator" [⟨"XRDCalculator", []⟩],
    .assign "big_xrd" "xrdc" [⟨"xrdc.get_xrd_data", ["big_structure"]⟩] ]

def pmgCell24 : List PyStmt :=
  [ .magicCmd "%matplotlib inline" ]

def pmgCell26 : List PyStmt :=
  [ .assign "lis_structures" "mpr" [⟨"mpr.get_structures", ["\"Li-S\""]⟩],
    .assign "data" "xrdc" [⟨"xrdc.get_xrd_data", ["lis_structures[0]", "two_theta_range=[10,80]"]⟩],
    .forLoop "n, lis_structure" "enumerate(lis_structures)" [⟨"enumerate", ["lis_structures"]⟩]
      [ .assign "data" "xrdc" [⟨"xrdc.get_xrd_data", ["lis_structure", "two_theta_range=[10,80]"]⟩],
        .ifElse "len(data) == 8" [⟨"len", ["data"]⟩]
          [ .printStmt ["lis_structure"] ] [] ] ]

def pmgCell28 : List PyStmt :=
  [ .fromImport "pymatgen.analysis.diffraction.xrd" ["XRDCalculator"],
    .fromImport "pymatgen.electronic_structure.plotter" ["BSPlotter", "DosPlotter"],
    .fromImport "pymatgen.electronic_structure.core" ["OrbitalType"],
    .assign "bs" "mpr" [⟨"mpr.get_bandstructure_by_material_id", ["\"mp-2657\""]⟩],
    .printStmt ["bs.get_band_gap()"],
    .assign "plotter" "BSPlotter" [⟨"BSPlotter", ["bs"]⟩],
    .assign "dos" "mpr" [⟨"mpr.get_dos_by_material_id", ["\"mp-2657\""]⟩],
    .assign "dp" "DosPlotter" [⟨"DosPlotter", []⟩],
    .assign "dos_ti" "dos" [⟨"dos.get_element_spd_dos", ["\"Ti\""]⟩],
    .assign "dos_o" "dos" [⟨"dos.get_element_spd_dos", ["\"O\""]⟩],
    .exprStmt "dp" [⟨"dp.add_dos", ["\"O p-states\"", "dos_o[OrbitalType.p]"]⟩],
    .exprStmt "dp" [⟨"dp.add_dos", ["\"Ti d-states\"", "dos_ti[OrbitalType.d]"]⟩] ]

def pmgCell31 : List PyStmt :=
  [ .importMod "json",
    .assign "data" "json" [⟨"json.load", ["open(\"sample_elastic.json\")"]⟩],
    .assign "si_struct" "Structure" [⟨"Structure.from_dict", ["data[0]"]⟩],
    .assign "et" "ElasticTensor" [⟨"ElasticTensor.from_voigt", ["data[1]"]⟩],
    .printStmt ["data[1]"],
    .exprStmt "et" [⟨"et.fit_to_structure", ["si_struct"]⟩] ]

def pmgCell34 : List PyStmt :=
  [ .fromImport "pymatgen.symmetry.analyzer" ["SpacegroupAnalyzer"],
    .fromImport "pymatgen.core.surface" ["generate_all_slabs"],
    .assign "lattice" "Lattice" [⟨"Lattice.cubic", ["2.85"]⟩],
    .assign "structure" "Structure" [⟨"Structure", ["lattice", "[\"Fe\", \"Fe\"]", "[[0, 0, 0], [0.5, 0.5, 0.5]]"]⟩],
    .assign "slabs" "generate_all_slabs" [⟨"generate_all_slabs", ["structure", "1", "4", "10"]⟩],
    .assign "first_slab" "slabs" [],
    .exprStmt "first_slab" [],
    .forLoop "slab" "slabs" []
      [ .printStmt ["slab.miller_index"] ] ]

def pymatgen_core_cells : List (List PyStmt) :=
  [pmgCell2, pmgCell4, pmgCell6, pmgCell8, pmgCell10, pmgCell12, pmgCell14,
   pmgCell16, pmgCell18, pmgCell20, pmgCell21, pmgCell23, pmgCell24,
   pmgCell26, pmgCell28, pmgCell31, pmgCell34]

-- manual_wflow/Si_bandstructure.ipynb, code cells in order.

def siCell2 : List PyStmt :=
  [ .magicCmd "%matplotlib inline",
    .importMod "pprint",
    .importMod "os",
    .importMod "tarfile",
    .importMod "glob",
    .importMod "matplotlib" ]

def siCell3 : List PyStmt :=
  [ .exprStmt "os" [⟨"os.mkdir", ["\"Si_BandStructure\""]⟩],
    .exprStmt "os" [⟨"os.chdir", ["\"Si_BandStructure\""]⟩] ]

def siCell5 : List PyStmt :=
  [ .fromImport "pymatgen.util.testing" ["PymatgenTest"],
    .assign "struct_si" "PymatgenTest" [⟨"PymatgenTest.get_structure", ["\"Si\""]⟩],
    .printStmt ["struct_si"] ]

def siCell7 : List PyStmt :=
  [ .fromImport "pymatgen.io.vasp.inputs" ["Poscar"],
    .assign "Pos" "Poscar" [⟨"Poscar", ["struct_si"]⟩],
    .printStmt ["Pos"] ]

def siCell9 : List PyStmt :=
  [ .fromImport "pymatgen.io.vasp.inputs" ["Kpoints"],
    .assign "kp" "Kpoints" [⟨"Kpoints", []⟩],
    .assign "kp" "kp" [⟨"kp.automatic_gamma_density", ["struct_si", "600"]⟩],
    .printStmt ["kp"] ]

def siCell11 : List PyStmt :=
  [ .fromImport "pymatgen.io.vasp.inputs" ["Potcar"],
    .assign "pots" "Potcar" [⟨"Potcar", ["[\"Si\"]"]⟩],
    .printStmt ["pots"] ]

def siCell13 : List PyStmt :=
  [ .assign "pots_lda" "Potcar" [⟨"Potcar", ["[\"Si\"]", "functional=\"LDA\""]⟩],
    .printStmt ["pots"] ]

def siCell15 : List PyStmt :=
  [ .fromImport "pymatgen.io.vasp.inputs" ["Incar"],
    .assign "inc" "Incar"
      [⟨"Incar", ["\x7b\"NELM\": 100, \"IBRION\": 2, \"LWAVE\": False, \"ISMEAR\": -5, \"SIGMA\": 0.05, \"MAGMOM\": [0.6, 0.6], \"ENCUT\": 520, \"ISIF\": 3, \"EDIFF\": 0.0001, \"NSW\": 99, \"LREAL\": \"Auto\", \"PREC\": \"Accurate\", \"ALGO\": \"Fast\", \"ISPIN\": 2, \"LORBIT\": 11\x7d"]⟩],
    .printStmt ["inc"] ]

def siCell17 : List PyStmt :=
  [ .fromImport "pymatgen.io.vasp.sets" ["MPRelaxSet"],
    .assign "vis" "MPRelaxSet" [⟨"MPRelaxSet", ["struct_si", "force_gamma=True"]⟩],
    .printStmt ["vis.poscar"],
    .printStmt ["vis.kpoints"],
    .printStmt ["vis.incar"],
    .printStmt ["vis.potcar"],
    .exprStmt "vis" [⟨"vis.write_input", ["\".\""]⟩] ]

def siCell19 : List PyStmt :=
  [ .shellCmd "cp ../outputs/Si_Opt/* .",
    .shellCmd "ls" ]

def siCell21 : List PyStmt :=
  [ .fromImport "pymatgen.io.vasp.outputs" ["Vasprun"],
    .assign "vrun" "Vasprun" [⟨"Vasprun", ["\"vasprun.xml\""]⟩],
    .exprStmt "vrun" [⟨"vrun.as_dict", []⟩] ]

def siCell23 : List PyStmt :=
  [ .shellCmd "mkdir opt",
    .shellCmd "mv * opt",
    .shellCmd "ls" ]

def siCell25 : List PyStmt :=
  [ .fromImport "pymatgen.io.vasp.sets" ["MPStaticSet"],
    .assign "static_vis" "MPStaticSet" [⟨"MPStaticSet.from_prev_calc", ["\"./opt\""]⟩],
    .exprStmt "static_vis" [⟨"static_vis.write_input", ["\".\""]⟩],
    .shellCmd "ls" ]

def siCell27 : List PyStmt :=
  [ .fromImport "custodian" ["Custodian"],
    .fromImport "custodian.vasp.handlers" ["VaspErrorHandler"],
    .fromImport "custodian.vasp.jobs" ["VaspJob"],
    .fromImport "custodian.vasp.validators" ["VasprunXMLValidator"],
    .assign "handlers" "VaspErrorHandler" [⟨"VaspErrorHandler", []⟩],
    .assign "jobs" "VaspJob" [⟨"VaspJob", ["vasp_cmd=[\"echo\",\"hello\"]"]⟩],
    .assign "validators" "VasprunXMLValidator" [⟨"VasprunXMLValidator", []⟩],
    .assign "c" "Custodian" [⟨"Custodian", ["handlers", "jobs", "validators"]⟩],
    .exprStmt "c" [⟨"c.run", []⟩] ]

def siCell29 : List PyStmt :=
  [ .shellCmd "cp ../outputs/Si_Static/* .",
    .exprStmt "c" [⟨"c.run", []⟩] ]

def siCell31 : List PyStmt :=
  [ .shellCmd "mkdir static",
    .shellCmd "mv * static" ]

def siCell33 : List PyStmt :=
  [ .fromImport "pymatgen.io.vasp.sets" ["MPNonSCFSet"],
    .assign "NonSCF_vis" "MPNonSCFSet" [⟨"MPNonSCFSet.from_prev_calc", ["\"./static\"", "mode=\"Line\""]⟩],
    .printStmt ["NonSCF_vis.kpoints"] ]

def siCell34 : List PyStmt :=
  [ .exprStmt "NonSCF_vis" [⟨"NonSCF_vis.write_input", ["\".\""]⟩],
    .shellCmd "ls" ]

def siCell36 : List PyStmt :=
  [ .shellCmd "cp ../outputs/Si_NonSCF/* .",
    .shellCmd "ls" ]

def siCell38 : List PyStmt :=
  [ .fromImport "pymatgen.io.vasp.outputs" ["Vasprun"],
    .fromImport "pymatgen.electronic_structure.plotter" ["BSPlotter"],
    .assign "vrun" "Vasprun" [⟨"Vasprun", ["\"vasprun.xml\""]⟩],
    .assign "band_struc" "vrun" [⟨"vrun.get_band_structure", ["kpoints_filename=\"KPOINTS\"", "line_mode=True"]⟩],
    .assign "bs_plotter" "BSPlotter" [⟨"BSPlotter", ["band_struc"]⟩],
    .exprStmt "bs_plotter" [⟨"bs_plotter.show", []⟩] ]

def siCell40 : List PyStmt :=
  [ .exprStmt "os" [⟨"os.chdir", ["\"..\""]⟩],
    .shellCmd "rm -Rf Si_BandStructure" ]

def si_bandstructure_cells : List (List PyStmt) :=
  [siCell2, siCell3, siCell5, siCell7, siCell9, siCell11, siCell13, siCell15,
   siCell17, siCell19, siCell21, siCell23, siCell25, siCell27, siCell29,
   siCell31, siCell33, siCell34, siCell36, siCell38, siCell40]

-- Statement analysis: the calls a statement performs (including those
-- in loop iterables, if conditions, and nested bodies), whether it
-- defines a callable, and whether it is original control flow.

mutual

def stmtCalls : PyStmt → List PyCall
  | .assign _ _ cs => cs
  | .exprStmt _ cs => cs
  | .forLoop _ _ ics body => ics ++ stmtListCalls body
  | .ifElse _ ccs thn els => ccs ++ stmtListCalls thn ++ stmtListCalls els
  | _ => []

def stmtListCalls : List PyStmt → List PyCall
  | [] => []
  | s :: rest => stmtCalls s ++ stmtListCalls rest

end

mutual

def stmtDefines : PyStmt → Bool
  | .funcDef _ => true
  | .classDef _ => true
  | .forLoop _ _ _ body => stmtListDefines body
  | .ifElse _ _ thn els => stmtListDefines thn || stmtListDefines els
  | _ => false

def stmtListDefines : List PyStmt → Bool
  | [] => false
  | s :: rest => stmtDefines s || stmtListDefines rest

end

def stmtIsControlFlow : PyStmt → Bool
  | .forLoop _ _ _ _ => true
  | .ifElse _ _ _ _ => true
  | _ => false

def cellHasControlFlow (cell : List PyStmt) : Bool := cell.any stmtIsControlFlow

def stmtImportedModule : PyStmt → Option String
  | .importMod m => some m
  | .fromImport m _ => some m
  | _ => none

def notebookStmts : List PyStmt :=
  pymatgen_core_cells.flatMap id ++ si_bandstructure_cells.flatMap id

def notebookCalls : List PyCall := stmtListCalls notebookStmts

def calleeSequence : List String := notebookCalls.map (fun c => c.callee)

-- The (sole) sequence of callables appearing in the pymatgen_core
-- notebook, in textual order, for the ordering claim C4.

def pmgCalleeSequence : List String :=
  (stmtListCalls (pymatgen_core_cells.flatMap id)).map (fun c => c.callee)

def importedModules : List String := notebookStmts.filterMap stmtImportedModule

def moduleRoot (m : String) : String := (splitStr '.' m).headD ""

-- The external packages the notebooks draw on: the scientific library,
-- the job-management framework, and the Python standard library.

def externalPackages : List String :=
  ["pymatgen", "custodian", "json", "os", "pprint", "tarfile", "glob", "matplotlib"]

-- Claim C1 as the spec states it: every directive flag is among the
-- listed allocation parameters, and there is exactly one command line.

def C1_statedCheck : Bool :=
  directiveFlags.all (fun f => specListedFlags.contains f) && commandLines.length == 1

end Workshop2016

namespace Workshop2016

/-- Claim C1, counterexample to the claim as stated: the script declares
directives beyond the allocation parameters the spec lists (the job-name
flag -N among them, also -V and -A), and it invokes two command lines (a
module-load line as well as the launch line), not one. -/
theorem C1_submit_script_stated_false :
    C1_statedCheck = false ∧
    directiveFlags.contains "-N" = true ∧ specListedFlags.contains "-N" = false ∧
    commandLines.length = 2 := by
  refine ⟨?_, ?_, ?_, ?_⟩ <;> decide

/-- Claim C1 (corrected): the submit script declares every allocation
parameter the spec lists (queue, node/core count and walltime, output and
error redirection, notification policy, working directory) as a fixed
directive; its remaining directives are exactly the job-name (-N),
environment-export (-V) and accounting-group (-A) flags; and beyond the
declarations it invokes two command lines, exactly one of which launches
a single external binary under an MPI launcher. -/
theorem C1_submit_script_amended :
    specListedFlags.all (fun f => directiveFlags.contains f) = true ∧
    directiveFlags.all
      (fun f => specListedFlags.contains f || (["-N", "-V", "-A"] : List String).contains f) = true ∧
    commandLines.length = 2 ∧
    (commandLines.filter launchesSingleBinaryUnderMPI).length = 1 := by
  refine ⟨?_, ?_, ?_, ?_⟩ <;> decide

/-- Claim C3: the submit script is a fixed declarative template: no
command line of it contains a shell control-flow keyword (if, case, for,
while, ...) or a shell variable assignment, so it has no conditional
logic, loops, or state transitions of its own. -/
theorem C3_submit_script_declarative :
    submit_script.all (fun l => !(isCommand l) || commandIsStraightLine l) = true := by
  decide

/-- Claim C7: the submit script contains no concurrency, synchronization
or cancellation constructs of its own: no line contains an ampersand (so
nothing is backgrounded), and no command token is wait, trap, kill or any
other job-control word. -/
theorem C7_submit_script_no_concurrency :
    submit_script.all (fun l => !(isCommand l) || commandHasNoConcurrency l) = true ∧
    submit_script.all (fun l => l.toList.all (fun c => !(c == '&'))) = true := by
  refine ⟨?_, ?_⟩ <;> decide

/-- Claim C8: the MPI process count on the launched command line (-np 24)
equals the total core allocation requested from the scheduler, the
declared node count (nodes=1) times the declared processors per node
(ppn=24). -/
theorem C8_np_matches_allocation :
    resourceValue "nodes" = some 1 ∧ resourceValue "ppn" = some 24 ∧
    npValue = some 24 ∧
    ∃ n p np, resourceValue "nodes" = some n ∧ resourceValue "ppn" = some p ∧
      npValue = some np ∧ n * p = np := by
  refine ⟨by decide, by decide, by decide, 1, 24, 24, by decide, by decide, by decide, rfl⟩

-- ===================================================================
-- Claims about the notebooks.
-- ===================================================================

-- The seven operations of the spec order, each given by the callables
-- under which it appears in the pymatgen_core notebook text.

def latticeConstructionCallees : List String :=
  ["Lattice", "Lattice.from_lengths_and_angles", "Lattice.cubic",
   "lattice.cubic", "lattice.hexagonal", "lattice.rhombohedral"]

def structureConstructionCallees : List String :=
  ["Structure", "Structure.from_spacegroup", "Structure.from_file", "Structure.from_dict"]

def symmetryAnalyzerCallees : List String := ["SpacegroupAnalyzer"]

def structureMatcherCallees : List String := ["StructureMatcher", "sm.fit", "sm.fit_anonymous"]

def diffractionCallees : List String := ["XRDCalculator", "xrdc.get_xrd_data"]

def tensorFitCallees : List String := ["et.fit_to_structure"]

def slabGenerationCallees : List String := ["generate_all_slabs"]

def specOpSequence : List (List String) :=
  [latticeConstructionCallees, structureConstructionCallees, symmetryAnalyzerCallees,
   structureMatcherCallees, diffractionCallees, tensorFitCallees, slabGenerationCallees]

def idxsMatching (cs : List String) : List Nat :=
  (List.range pmgCalleeSequence.length).filter (fun i => cs.contains (pmgCalleeSequence.getD i ""))

def allBefore (xs ys : List Nat) : Bool := xs.all (fun j => ys.all (fun i => j < i))

def occursAllInStrictOrder : List (List Nat) → Bool
  | [] => true
  | [xs] => !xs.isEmpty
  | xs :: ys :: rest => !xs.isEmpty && allBefore xs ys && occursAllInStrictOrder (ys :: rest)

def firstIdxMatching (cs : List String) : Nat :=
  pmgCalleeSequence.findIdx (fun s => cs.contains s)

-- Claim C4 as stated: every occurrence of each listed operation comes
-- after every occurrence of each operation listed before it.

def C4_statedCheck : Bool :=
  occursAllInStrictOrder (specOpSequence.map idxsMatching)

/-- Claim C4, counterexample to the claim as stated: the tensor-fitting
call (position 59 of the call sequence) precedes a lattice-construction
call (the Lattice.cubic call of the surfaces cell, position 60), so a
later-listed operation does precede an earlier-listed one. -/
theorem C4_order_stated_false :
    C4_statedCheck = false ∧
    pmgCalleeSequence.getD 59 "" = "et.fit_to_structure" ∧
    pmgCalleeSequence.getD 60 "" = "Lattice.cubic" := by
  refine ⟨?_, ?_, ?_⟩ <;> decide

/-- Claim C4 (corrected): each listed operation occurs in the
pymatgen_core notebook, and their first occurrences come in the order the
spec states: construct lattice, construct structure, symmetry analyzer,
structure matcher, diffraction calculator, tensor fitting, surface
generation.  (Later cells construct fresh lattices and structures again,
which is the only departure from the stated order.) -/
theorem C4_order_amended :
    firstIdxMatching latticeConstructionCallees < firstIdxMatching structureConstructionCallees ∧
    firstIdxMatching structureConstructionCallees < firstIdxMatching symmetryAnalyzerCallees ∧
    firstIdxMatching symmetryAnalyzerCallees < firstIdxMatching structureMatcherCallees ∧
    firstIdxMatching structureMatcherCallees < firstIdxMatching diffractionCallees ∧
    firstIdxMatching diffractionCallees < firstIdxMatching tensorFitCallees ∧
    firstIdxMatching tensorFitCallees < firstIdxMatching slabGenerationCallees ∧
    firstIdxMatching slabGenerationCallees < pmgCalleeSequence.length := by
  refine ⟨?_, ?_, ?_, ?_, ?_, ?_, ?_⟩ <;> decide

/-- Claim C2: the notebooks define no function or class of their own,
every module they import is an external package (the scientific library,
the job-management framework, or the Python standard library), each
nontrivial operation the spec lists (symmetry detection, structure
matching, XRD computation, tensor fitting, slab generation, job
running/error handling) appears as a call to that external surface, and
the submit script contains no control flow, so no scheduler, parser, or
retry state machine is implemented in the given files. -/
theorem C2_no_original_algorithmic_core :
    stmtListDefines notebookStmts = false ∧
    importedModules.all (fun m => externalPackages.contains (moduleRoot m)) = true ∧
    calleeSequence.contains "SpacegroupAnalyzer" = true ∧
    calleeSequence.contains "sm.fit" = true ∧
    calleeSequence.contains "sm.fit_anonymous" = true ∧
    calleeSequence.contains "xrdc.get_xrd_data" = true ∧
    calleeSequence.contains "et.fit_to_structure" = true ∧
    calleeSequence.contains "generate_all_slabs" = true ∧
    calleeSequence.contains "Custodian" = true ∧
    calleeSequence.contains "c.run" = true ∧
    submit_script.all (fun l => !(isCommand l) || commandIsStraightLine l) = true := by
  refine ⟨?_, ?_, ?_, ?_, ?_, ?_, ?_, ?_, ?_, ?_, ?_⟩ <;> decide

-- The constructor names of the job-management framework components
-- (error handler, job, validator) invoked in the Si_bandstructure
-- notebook, for claim C5.

def custodianComponentCtors : List String :=
  ["VaspErrorHandler", "VaspJob", "VasprunXMLValidator"]

-- Claim C5 as stated: every handler, job, and validator constructor
-- call passes no arguments, and no error-handling code is defined.

def C5_statedCheck : Bool :=
  notebookCalls.all
    (fun call => !(custodianComponentCtors.contains call.callee) || call.args.isEmpty) &&
  !(stmtListDefines notebookStmts)

/-- Claim C5, counterexample to the claim as stated: the job constructor
is not called with default arguments only; it is passed an explicit
command, VaspJob(vasp_cmd=["echo","hello"]). -/
theorem C5_defaults_stated_false :
    C5_statedCheck = false ∧
    (notebookCalls.filter (fun c => c.callee == "VaspJob")) =
      [⟨"VaspJob", ["vasp_cmd=[\"echo\",\"hello\"]"]⟩] := by
  refine ⟨?_, ?_⟩ <;> decide

/-- Claim C5 (corrected): the error handler and validator of the
job-management framework are constructed with no arguments, the single
job constructor is passed exactly one argument (the command line it is
to run), the framework object itself is handed just those handlers,
jobs and validators, and the repository defines no error-handling code
of its own (no function or class definition exists in the notebooks). -/
theorem C5_defaults_amended :
    (notebookCalls.filter (fun c => c.callee == "VaspErrorHandler")) = [⟨"VaspErrorHandler", []⟩] ∧
    (notebookCalls.filter (fun c => c.callee == "VasprunXMLValidator")) = [⟨"VasprunXMLValidator", []⟩] ∧
    (notebookCalls.filter (fun c => c.callee == "VaspJob")) =
      [⟨"VaspJob", ["vasp_cmd=[\"echo\",\"hello\"]"]⟩] ∧
    (notebookCalls.filter (fun c => c.callee == "Custodian")) =
      [⟨"Custodian", ["handlers", "jobs", "validators"]⟩] ∧
    stmtListDefines notebookStmts = false := by
  refine ⟨?_, ?_, ?_, ?_, ?_⟩ <;> decide

-- Claim C6 as stated: every code cell of both notebooks is free of
-- loops and conditionals.

def C6_statedCheck : Bool :=
  (pymatgen_core_cells ++ si_bandstructure_cells).all (fun cell => !(cellHasControlFlow cell))

/-- Claim C6, counterexample to the claim as stated: the
selective-dynamics cell of the pymatgen_core notebook (cell index 4 of
the code cells) contains a for loop with an if branch, so not every code
cell is a straight-line sequence of calls. -/
theorem C6_straight_line_stated_false :
    C6_statedCheck = false ∧ cellHasControlFlow (pymatgen_core_cells.getD 4 []) = true := by
  refine ⟨?_, ?_⟩ <;> decide

/-- Claim C6 (corrected): every code cell of the Si_bandstructure
notebook is a straight-line sequence of calls; in the pymatgen_core
notebook exactly five cells (the selective-dynamics cell, the O-to-F
replacement cell, the anonymous-matching cell, the XRD loop cell and the
slab printing cell) contain a short for loop or if branch, and every
other cell is straight-line; neither notebook defines a function or a
class, so the repository still has essentially zero lines of original
logic. -/
theorem C6_straight_line_amended :
    pymatgen_core_cells.map cellHasControlFlow =
      [false, false, false, false, true, true, false, false, false, false,
       true, false, false, true, false, false, true] ∧
    si_bandstructure_cells.all (fun cell => !(cellHasControlFlow cell)) = true ∧
    stmtListDefines notebookStmts = false := by
  refine ⟨?_, ?_, ?_⟩ <;> decide

-- ===================================================================
-- Part 3: the substitution transformation round trip (claim C9).
-- ===================================================================

/-- Modelled from the spec: the library call surface of the external
scientific library (spec section 6) treats a structure as a lattice plus
chemical site occupants (spec glossary).  The transformation cell of
pymatgen_core.ipynb calls SubstitutionTransformation, which is external
library code not contained in this repository; a site is modelled by its
species label and fractional coordinates, which is all the substitution
surface touches. -/
structure PmgSite where
  species : String
  fracCoords : List ℚ
deriving DecidableEq

/-- Modelled from the spec: a structure as the external library exposes
it to the transformation cell, the list of its sites. -/
structure PmgStructure where
  sites : List PmgSite
deriving DecidableEq

/-- Modelled from the spec: the species map of the external
SubstitutionTransformation sends a species to its image under the given
species mapping and leaves every unmapped species unchanged. -/
def mapSpecies (m : List (String × String)) (sp : String) : String :=
  match m.find? (fun kv => kv.1 == sp) with
  | some kv => kv.2
  | none => sp

/-- Modelled from the spec: applying the external
SubstitutionTransformation replaces each site species by its image and
keeps the site coordinates. -/
def substApply (m : List (String × String)) (s : PmgStructure) : PmgStructure :=
  ⟨s.sites.map (fun site => ⟨mapSpecies m site.species, site.fracCoords⟩)⟩

/-- Modelled from the spec: the inverse of a SubstitutionTransformation
is the SubstitutionTransformation of the inverted species map. -/
def substInverseMap (m : List (String × String)) : List (String × String) :=
  m.map (fun kv => (kv.2, kv.1))

-- The species map used in the transformation cell of the notebook:
-- SubstitutionTransformation with the mapping sending O to F.

def oToF : List (String × String) := [("O", "F")]

lemma mapSpecies_single (k v sp : String) :
    mapSpecies [(k, v)] sp = if k = sp then v else sp := by
  unfold mapSpecies
  by_cases h : k = sp
  · simp [List.find?, h]
  · have hb : (k == sp) = false := by simp [h]
    simp [List.find?, h, hb]

lemma mapSpecies_oToF_inv (sp : String) (h : ¬ sp = "F") :
    mapSpecies (substInverseMap oToF) (mapSpecies oToF sp) = sp := by
  rw [show substInverseMap oToF = [("F", "O")] from rfl,
    show oToF = [("O", "F")] from rfl, mapSpecies_single, mapSpecies_single]
  by_cases h0 : "O" = sp
  · rw [if_pos h0, if_pos rfl]
    exact h0
  · rw [if_neg h0, if_neg (fun hh => h hh.symm)]

/-- Claim C9: for any structure without fluorine sites (as the BaNiO3
structure of the transformation cell is), applying the
SubstitutionTransformation that maps O to F and then applying its
inverse transformation yields the original structure, so the comparison
old_structure == structure of the cell holds. -/
theorem C9_substitution_roundtrip (s : PmgStructure)
    (h : ∀ site ∈ s.sites, ¬ site.species = "F") :
    substApply (substInverseMap oToF) (substApply oToF s) = s := by
  cases s with
  | mk sites =>
    have key : ∀ (l : List PmgSite), (∀ site ∈ l, ¬ site.species = "F") →
        (l.map (fun site => (⟨mapSpecies oToF site.species, site.fracCoords⟩ : PmgSite))).map
          (fun site =>
            (⟨mapSpecies (substInverseMap oToF) site.species, site.fracCoords⟩ : PmgSite)) = l := by
      intro l
      induction l with
      | nil => intro _; rfl
      | cons a as ih =>
        intro hl
        have ha := hl a (List.mem_cons_self a as)
        have has : ∀ site ∈ as, ¬ site.species = "F" :=
          fun st hst => hl st (List.mem_cons_of_mem a hst)
        simp only [List.map_cons]
        rw [ih has]
        cases a with
        | mk sp fc =>
          simp only [List.cons.injEq, and_true]
          exact congrArg (fun x => PmgSite.mk x fc) (mapSpecies_oToF_inv sp ha)
    show substApply (substInverseMap oToF) (substApply oToF ⟨sites⟩) = ⟨sites⟩
    unfold substApply
    exact congrArg PmgStructure.mk (key sites h)

-- A concrete cubic-perovskite BaNiO3-type structure, with the species
-- the Materials Project entry queried by the cell holds: barium, nickel
-- and oxygen sites, no fluorine.

def baNiO3_demo : PmgStructure :=
  ⟨[⟨"Ba", [0, 0, 0]⟩, ⟨"Ni", [1/2, 1/2, 1/2]⟩, ⟨"O", [1/2, 1/2, 0]⟩,
    ⟨"O", [1/2, 0, 1/2]⟩, ⟨"O", [0, 1/2, 1/2]⟩]⟩

/-- Claim C9, witness: the round trip evaluated on the concrete
BaNiO3-type structure. -/
theorem C9_substitution_roundtrip_witness :
    (∀ site ∈ baNiO3_demo.sites, ¬ site.species = "F") ∧
    substApply (substInverseMap oToF) (substApply oToF baNiO3_demo) = baNiO3_demo :=
  ⟨by decide, C9_substitution_roundtrip baNiO3_demo (by decide)⟩

-- ===================================================================
-- Part 4: the filesystem effects of Si_bandstructure.ipynb (claim C10).
-- A path is the list of its components from the root; the filesystem is
-- an association list from paths to entries, the front entry shadowing
-- later ones; the state carries the working directory.
-- ===================================================================

inductive FsEntry where
  | dir : FsEntry
  | file (content : String) : FsEntry
deriving DecidableEq

def fsLookup (fs : List (List String × FsEntry)) (p : List String) : Option FsEntry :=
  match fs.find? (fun e => e.1 == p) with
  | some e => some e.2
  | none => none

def fsSet (fs : List (List String × FsEntry)) (p : List String) (e : FsEntry) :
    List (List String × FsEntry) :=
  (p, e) :: fs

structure FsState where
  cwd : List String
  fs : List (List String × FsEntry)
deriving DecidableEq

-- resolveRel resolves a relative path such as ../outputs/Si_Opt against
-- the working directory.

def resolveComp (cwd : List String) (n : String) : List String :=
  if n == ".." then cwd.dropLast else cwd ++ [n]

def resolveRel (cwd : List String) (ns : List String) : List String :=
  ns.foldl resolveComp cwd

-- The direct children of a directory: every entry lying one component
-- below it, paired with that final component.

def dirChildren (fs : List (List String × FsEntry)) (S : List String) :
    List (String × FsEntry) :=
  fs.filterMap (fun e =>
    match e.1.getLast? with
    | some b => if e.1 == S ++ [b] then some (b, e.2) else none
    | none => none)

-- The filesystem operations the notebook performs.  Modelled from the
-- spec for the external calls whose code is not in the repository
-- (section 6: VASP-style input writers write their input files into the
-- given directory; section 1: the job-management framework runs jobs in
-- the working directory, where it leaves its log); the shell commands
-- cp, mkdir, mv, rm -Rf have their usual meaning.

inductive FsOp where
  | mkdirOp (n : String)
  | chdirInto (n : String)
  | chdirUp
  | writeFiles (ns : List String)
  | copyAllFrom (src : List String)
  | moveAllInto (n : String)
  | runJob
  | readEntry (n : String)
  | listDir
  | rmRfOp (n : String)

def step (s : FsState) : FsOp → FsState
  | .mkdirOp n => ⟨s.cwd, fsSet s.fs (s.cwd ++ [n]) .dir⟩
  | .chdirInto n => ⟨s.cwd ++ [n], s.fs⟩
  | .chdirUp => ⟨s.cwd.dropLast, s.fs⟩
  | .writeFiles ns => ⟨s.cwd, ns.foldl (fun f n => fsSet f (s.cwd ++ [n]) (.file n)) s.fs⟩
  | .copyAllFrom src =>
      ⟨s.cwd, (dirChildren s.fs (resolveRel s.cwd src)).foldl
        (fun f bc => fsSet f (s.cwd ++ [bc.1]) bc.2) s.fs⟩
  | .moveAllInto n =>
      ⟨s.cwd, s.fs.map (fun e =>
        if s.cwd.isPrefixOf e.1 && !(e.1 == s.cwd) && !((s.cwd ++ [n]).isPrefixOf e.1) then
          (s.cwd ++ [n] ++ e.1.drop s.cwd.length, e.2)
        else e)⟩
  | .runJob => ⟨s.cwd, fsSet s.fs (s.cwd ++ ["custodian.json"]) (.file "custodian.json")⟩
  | .readEntry _ => s
  | .listDir => s
  | .rmRfOp n => ⟨s.cwd, s.fs.filter (fun e => !((s.cwd ++ [n]).isPrefixOf e.1))⟩

def runOps (s : FsState) (ops : List FsOp) : FsState := ops.foldl step s

-- The filesystem effects of the Si_bandstructure notebook, cell by
-- cell: the opening mkdir and chdir (cell with os.mkdir), the writes
-- and shell commands of the middle cells, the closing chdir("..") and
-- rm -Rf (final cell).

def siMidOps : List FsOp :=
  [ .writeFiles ["INCAR", "KPOINTS", "POSCAR", "POTCAR"],
    .copyAllFrom ["..", "outputs", "Si_Opt"], .listDir,
    .readEntry "vasprun.xml",
    .mkdirOp "opt", .moveAllInto "opt", .listDir,
    .readEntry "opt", .writeFiles ["INCAR", "KPOINTS", "POSCAR", "POTCAR"], .listDir,
    .runJob,
    .copyAllFrom ["..", "outputs", "Si_Static"], .runJob,
    .mkdirOp "static", .moveAllInto "static",
    .readEntry "static",
    .writeFiles ["INCAR", "KPOINTS", "POSCAR", "POTCAR"], .listDir,
    .copyAllFrom ["..", "outputs", "Si_NonSCF"], .listDir,
    .readEntry "vasprun.xml" ]

def si_bandstructure_ops : List FsOp :=
  FsOp.mkdirOp "Si_BandStructure" :: FsOp.chdirInto "Si_BandStructure" ::
    (siMidOps ++ [FsOp.chdirUp, FsOp.rmRfOp "Si_BandStructure"])

def isChdirOp : FsOp → Bool
  | .chdirInto _ => true
  | .chdirUp => true
  | _ => false

-- Frame lemmas: a lookup at a path the working directory is not a
-- prefix of is unchanged by any single operation.

lemma fsLookup_cons_ne (fs : List (List String × FsEntry)) (p q : List String)
    (e : FsEntry) (h : ¬ p = q) : fsLookup ((p, e) :: fs) q = fsLookup fs q := by
  have hb : (p == q) = false := by simp [h]
  simp [fsLookup, List.find?, hb]

lemma fsLookup_foldl_set (cwd q : List String) (h : ¬ cwd <+: q) :
    ∀ (l : List (String × FsEntry)) (fs : List (List String × FsEntry)),
      fsLookup (l.foldl (fun f bc => fsSet f (cwd ++ [bc.1]) bc.2) fs) q = fsLookup fs q := by
  intro l
  induction l with
  | nil => intro fs; rfl
  | cons a l ih =>
    intro fs
    rw [List.foldl_cons, ih]
    exact fsLookup_cons_ne fs (cwd ++ [a.1]) q a.2
      (fun hh => h (hh ▸ List.prefix_append cwd [a.1]))

lemma fsLookup_foldl_write (cwd q : List String) (h : ¬ cwd <+: q) :
    ∀ (ns : List String) (fs : List (List String × FsEntry)),
      fsLookup (ns.foldl (fun f n => fsSet f (cwd ++ [n]) (.file n)) fs) q = fsLookup fs q := by
  intro ns
  induction ns with
  | nil => intro fs; rfl
  | cons n ns ih =>
    intro fs
    rw [List.foldl_cons, ih]
    exact fsLookup_cons_ne fs (cwd ++ [n]) q (.file n)
      (fun hh => h (hh ▸ List.prefix_append cwd [n]))

lemma fsLookup_filter_keep (P : List String → Bool) (q : List String) (hq : P q = true) :
    ∀ fs : List (List String × FsEntry),
      fsLookup (fs.filter (fun e => P e.1)) q = fsLookup fs q := by
  intro fs
  induction fs with
  | nil => rfl
  | cons a fs ih =>
    obtain ⟨ap, ae⟩ := a
    rw [List.filter_cons]
    by_cases hpq : ap = q
    · have hPa : P (ap, ae).1 = true := by simpa [hpq] using hq
      rw [if_pos hPa]
      have hb : (ap == q) = true := by simp [hpq]
      simp [fsLookup, List.find?, hb]
    · cases hPa : P (ap, ae).1 with
      | true =>
          rw [if_pos rfl, fsLookup_cons_ne _ _ _ _ hpq, ih,
            ← fsLookup_cons_ne fs ap q ae hpq]
      | false =>
          rw [if_neg Bool.false_ne_true, ih, ← fsLookup_cons_ne fs ap q ae hpq]

lemma fsLookup_filter_out (P : List String → Bool) (q : List String) (hq : P q = false) :
    ∀ fs : List (List String × FsEntry),
      fsLookup (fs.filter (fun e => P e.1)) q = none := by
  intro fs
  induction fs with
  | nil => rfl
  | cons a fs ih =>
    obtain ⟨ap, ae⟩ := a
    rw [List.filter_cons]
    cases hPa : P (ap, ae).1 with
    | true =>
        have hpq : ¬ ap = q := by
          intro hh
          rw [show P (ap, ae).1 = P ap from rfl, hh, hq] at hPa
          exact Bool.noConfusion hPa
        rw [if_pos rfl, fsLookup_cons_ne _ _ _ _ hpq]
        exact ih
    | false =>
        rw [if_neg Bool.false_ne_true]
        exact ih

lemma fsLookup_move_map (cwd : List String) (n : String) (q : List String)
    (h : ¬ cwd <+: q) :
    ∀ fs : List (List String × FsEntry),
      fsLookup (fs.map (fun e =>
        if cwd.isPrefixOf e.1 && !(e.1 == cwd) && !((cwd ++ [n]).isPrefixOf e.1) then
          (cwd ++ [n] ++ e.1.drop cwd.length, e.2)
        else e)) q = fsLookup fs q := by
  intro fs
  induction fs with
  | nil => rfl
  | cons a fs ih =>
    simp only [List.map_cons]
    by_cases hc : (cwd.isPrefixOf a.1 && !(a.1 == cwd) && !((cwd ++ [n]).isPrefixOf a.1)) = true
    · have hpre : cwd <+: a.1 :=
        List.isPrefixOf_iff_prefix.mp ((Bool.and_eq_true _ _).mp ((Bool.and_eq_true _ _).mp hc).1).1
      have haq : ¬ a.1 = q := fun hh => h (hh ▸ hpre)
      have hmq : ¬ (cwd ++ [n] ++ a.1.drop cwd.length) = q := by
        intro hh
        apply h
        rw [← hh, List.append_assoc]
        exact List.prefix_append cwd _
      rw [if_pos hc, fsLookup_cons_ne _ _ _ _ hmq, ih, ← fsLookup_cons_ne fs a.1 q a.2 haq]
    · rw [if_neg hc]
      by_cases haq : a.1 = q
      · have hb : (a.1 == q) = true := by simp [haq]
        simp [fsLookup, List.find?, hb]
      · rw [fsLookup_cons_ne _ _ _ _ haq, ih, ← fsLookup_cons_ne fs a.1 q a.2 haq]

lemma step_cwd (s : FsState) (op : FsOp) (h : isChdirOp op = false) :
    (step s op).cwd = s.cwd := by
  cases op <;> simp [step, isChdirOp] at h ⊢

lemma step_frame (s : FsState) (op : FsOp) (q : List String) (h : ¬ s.cwd <+: q) :
    fsLookup (step s op).fs q = fsLookup s.fs q := by
  cases op with
  | mkdirOp n =>
      exact fsLookup_cons_ne _ _ _ _ (fun hh => h (hh ▸ List.prefix_append s.cwd [n]))
  | chdirInto n => rfl
  | chdirUp => rfl
  | writeFiles ns => exact fsLookup_foldl_write s.cwd q h ns s.fs
  | copyAllFrom src => exact fsLookup_foldl_set s.cwd q h _ s.fs
  | moveAllInto n => exact fsLookup_move_map s.cwd n q h s.fs
  | runJob =>
      exact fsLookup_cons_ne _ _ _ _
        (fun hh => h (hh ▸ List.prefix_append s.cwd ["custodian.json"]))
  | readEntry n => rfl
  | listDir => rfl
  | rmRfOp n =>
      have hP : (fun r => !((s.cwd ++ [n]).isPrefixOf r)) q = true := by
        have : ((s.cwd ++ [n]).isPrefixOf q) = false := by
          cases hpp : (s.cwd ++ [n]).isPrefixOf q with
          | false => rfl
          | true =>
              exact absurd ((List.prefix_append s.cwd [n]).trans
                (List.isPrefixOf_iff_prefix.mp hpp)) h
        simp [this]
      exact fsLookup_filter_keep (fun r => !((s.cwd ++ [n]).isPrefixOf r)) q hP s.fs

lemma runOps_cwd (ops : List FsOp) (hops : ops.all (fun o => !(isChdirOp o)) = true) :
    ∀ s : FsState, (runOps s ops).cwd = s.cwd := by
  induction ops with
  | nil => intro s; rfl
  | cons op ops ih =>
    intro s
    simp only [List.all_cons, Bool.and_eq_true, Bool.not_eq_true'] at hops
    rw [show runOps s (op :: ops) = runOps (step s op) ops from rfl,
      ih (by simp [List.all_eq_true]; intro x hx; have := hops.2; simp [List.all_eq_true] at this; simp [this x hx]) (step s op),
      step_cwd s op hops.1]

lemma runOps_frame (ops : List FsOp) (hops : ops.all (fun o => !(isChdirOp o)) = true) :
    ∀ (s : FsState) (q : List String), ¬ s.cwd <+: q →
      fsLookup (runOps s ops).fs q = fsLookup s.fs q := by
  induction ops with
  | nil => intro s q _; rfl
  | cons op ops ih =>
    intro s q h
    simp only [List.all_cons, Bool.and_eq_true] at hops
    have hcwd : (step s op).cwd = s.cwd := by
      apply step_cwd
      cases hb : isChdirOp op with
      | false => rfl
      | true => rw [hb] at hops; exact absurd hops.1 (by decide)
    rw [show runOps s (op :: ops) = runOps (step s op) ops from rfl,
      ih hops.2 (step s op) q (by rw [hcwd]; exact h), step_frame s op q h]

-- A run that opens with mkdir d and chdir d, performs only
-- non-directory-changing operations, and closes with chdir .. and
-- rm -Rf d ends at the original working directory with the d subtree
-- filtered out of the middle run.

lemma runOps_sandwich (p : List String) (fs0 : List (List String × FsEntry))
    (mid : List FsOp) (hmid : mid.all (fun o => !(isChdirOp o)) = true) (d : String) :
    runOps ⟨p, fs0⟩ (FsOp.mkdirOp d :: FsOp.chdirInto d :: (mid ++ [FsOp.chdirUp, FsOp.rmRfOp d]))
      = ⟨p, (runOps ⟨p ++ [d], ((p ++ [d], FsEntry.dir) :: fs0)⟩ mid).fs.filter
          (fun e => !((p ++ [d]).isPrefixOf e.1))⟩ := by
  have h1 : runOps ⟨p, fs0⟩
        (FsOp.mkdirOp d :: FsOp.chdirInto d :: (mid ++ [FsOp.chdirUp, FsOp.rmRfOp d]))
      = runOps (runOps ⟨p ++ [d], ((p ++ [d], FsEntry.dir) :: fs0)⟩ mid)
          [FsOp.chdirUp, FsOp.rmRfOp d] := by
    show List.foldl step _ _ = _
    rw [List.foldl_cons, List.foldl_cons, List.foldl_append]
    rfl
  rw [h1]
  have hdrop : (runOps ⟨p ++ [d], ((p ++ [d], FsEntry.dir) :: fs0)⟩ mid).cwd.dropLast = p := by
    rw [runOps_cwd mid hmid _]
    simp
  show (⟨(runOps ⟨p ++ [d], ((p ++ [d], FsEntry.dir) :: fs0)⟩ mid).cwd.dropLast,
      (runOps ⟨p ++ [d], ((p ++ [d], FsEntry.dir) :: fs0)⟩ mid).fs.filter
        (fun e => !(((runOps ⟨p ++ [d], ((p ++ [d], FsEntry.dir) :: fs0)⟩ mid).cwd.dropLast
          ++ [d]).isPrefixOf e.1))⟩ : FsState) = _
  rw [hdrop]

/-- Claim C10: for every starting directory p and every starting
filesystem, running the filesystem effects of the Si_bandstructure
notebook (create Si_BandStructure, work inside it, return to the parent,
remove Si_BandStructure recursively) ends with the working directory
back at p, leaves every path outside the Si_BandStructure subtree
exactly as it was, and leaves nothing under the Si_BandStructure
subtree. -/
theorem C10_si_bandstructure_frame (p : List String) (fs0 : List (List String × FsEntry)) :
    (runOps ⟨p, fs0⟩ si_bandstructure_ops).cwd = p ∧
    (∀ q : List String, ¬ ((p ++ ["Si_BandStructure"]) <+: q) →
      fsLookup (runOps ⟨p, fs0⟩ si_bandstructure_ops).fs q = fsLookup fs0 q) ∧
    (∀ q : List String, (p ++ ["Si_BandStructure"]) <+: q →
      fsLookup (runOps ⟨p, fs0⟩ si_bandstructure_ops).fs q = none) := by
  have hmidall : siMidOps.all (fun o => !(isChdirOp o)) = true := by decide
  have hops : si_bandstructure_ops
      = FsOp.mkdirOp "Si_BandStructure" :: FsOp.chdirInto "Si_BandStructure" ::
          (siMidOps ++ [FsOp.chdirUp, FsOp.rmRfOp "Si_BandStructure"]) := rfl
  rw [hops, runOps_sandwich p fs0 siMidOps hmidall "Si_BandStructure"]
  refine ⟨rfl, ?_, ?_⟩
  · intro q hq
    have hPq : (fun r => !((p ++ ["Si_BandStructure"]).isPrefixOf r)) q = true := by
      have hf : ((p ++ ["Si_BandStructure"]).isPrefixOf q) = false := by
        cases hpp : (p ++ ["Si_BandStructure"]).isPrefixOf q with
        | false => rfl
        | true => exact absurd (List.isPrefixOf_iff_prefix.mp hpp) hq
      simp [hf]
    show fsLookup
        ((runOps ⟨p ++ ["Si_BandStructure"], ((p ++ ["Si_BandStructure"], FsEntry.dir) :: fs0)⟩
          siMidOps).fs.filter
            (fun e => (fun r => !((p ++ ["Si_BandStructure"]).isPrefixOf r)) e.1)) q = fsLookup fs0 q
    rw [fsLookup_filter_keep (fun r => !((p ++ ["Si_BandStructure"]).isPrefixOf r)) q hPq,
      runOps_frame siMidOps hmidall
        ⟨p ++ ["Si_BandStructure"], ((p ++ ["Si_BandStructure"], FsEntry.dir) :: fs0)⟩ q hq]
    exact fsLookup_cons_ne fs0 _ q _ (fun hh => hq (hh ▸ List.prefix_refl _))
  · intro q hq
    have hPq : (fun r => !((p ++ ["Si_BandStructure"]).isPrefixOf r)) q = false := by
      have ht : ((p ++ ["Si_BandStructure"]).isPrefixOf q) = true :=
        List.isPrefixOf_iff_prefix.mpr hq
      simp [ht]
    exact fsLookup_filter_out (fun r => !((p ++ ["Si_BandStructure"]).isPrefixOf r)) q hPq _

-- A concrete demonstration filesystem: the parent directory holds the
-- pre-computed outputs the notebook copies from.

def demoFs : List (List String × FsEntry) :=
  [ (["home", "outputs", "Si_Opt", "POSCAR"], FsEntry.file "relaxed") ]

/-- Claim C10, witness: the frame theorem evaluated at a concrete parent
directory and filesystem, for a concrete path outside the
Si_BandStructure subtree (unchanged) and one inside it (removed). -/
theorem C10_si_bandstructure_frame_witness :
    (¬ ((["home"] ++ ["Si_BandStructure"]) <+: ["home", "outputs", "Si_Opt", "POSCAR"])) ∧
    (runOps ⟨["home"], demoFs⟩ si_bandstructure_ops).cwd = ["home"] ∧
    fsLookup (runOps ⟨["home"], demoFs⟩ si_bandstructure_ops).fs
        ["home", "outputs", "Si_Opt", "POSCAR"]
      = fsLookup demoFs ["home", "outputs", "Si_Opt", "POSCAR"] ∧
    ((["home"] ++ ["Si_BandStructure"]) <+: ["home", "Si_BandStructure", "POSCAR"]) ∧
    fsLookup (runOps ⟨["home"], demoFs⟩ si_bandstructure_ops).fs
        ["home", "Si_BandStructure", "POSCAR"] = none :=
  ⟨by decide,
   (C10_si_bandstructure_frame ["home"] demoFs).1,
   (C10_si_bandstructure_frame ["home"] demoFs).2.1 _ (by decide),
   by decide,
   (C10_si_bandstructure_frame ["home"] demoFs).2.2 _ (by decide)⟩

end Workshop2016
